import Mathlib

/-!
# Verification of the aiokafka producer core (`aiokafka/producer/producer.py`)

This file gives a shallow embedding of the parts of `AIOKafkaProducer` that the
claims concern: produce-response handling (`_send_produce_req`), the retry
policy (`_can_retry`), record serialization size checks (`_serialize`),
partition selection (`_partition`), the send entry points (`send`,
`send_batch`), the transactional request helpers (`_do_add_partitions_to_txn`,
`_do_txn_commit`) and the sender loop's muting / in-flight bookkeeping
(`_sender_routine`).

Pure functions of the source are translated into Lean functions; the effects a
coroutine applies to batches or to the transaction manager are recorded as
explicit action lists; the sender loop's task bookkeeping is a step relation
on a small state type.  Helpers that live in modules of this repository that
are not part of the sources at hand (`message_accumulator.py`,
`transaction_manager.py`, `aiokafka/errors.py`, `aiokafka/record`) are
modelled from the specification and marked as such in their doc comments.
-/

namespace Aiokafka

/-- `TopicPartition` from `aiokafka.structs`: a (topic, partition) pair.
The partition index is an `Int` because user-supplied partitions are
arbitrary Python ints (the producer asserts nonnegativity itself). -/
structure TopicPartition where
  topic : String
  partitionIndex : Int
deriving DecidableEq, Repr

/-- The error classes of `aiokafka.errors` that `producer.py` dispatches on,
plus `otherError r` covering any other broker error with retriable flag `r`. -/
inductive ErrorType
  | noError
  | duplicateSequenceNumber
  | invalidProducerEpoch
  | producerFenced
  | unknownTopicOrPartition
  | requestTimedOut
  | coordinatorNotAvailable
  | notCoordinator
  | coordinatorLoadInProgress
  | concurrentTransactions
  | invalidTxnState
  | invalidProducerIdMapping
  | otherError (retriableFlag : Bool)
deriving DecidableEq, Repr

/-- Modelled from the spec: the `retriable` attribute of the error classes in
`aiokafka/errors.py` (that module is not among the sources at hand).  Spec §7
lists the retriable RPC errors (RequestTimedOut, UnknownTopicOrPartition, the
coordinator-availability errors and ConcurrentTransactions retry after
backoff); `NoError`, `DuplicateSequenceNumber`, `InvalidProducerEpoch`,
`ProducerFenced`, `InvalidTxnState` and `InvalidProducerIdMapping` are
non-retriable. -/
def ErrorType.retriable : ErrorType → Bool
  | .unknownTopicOrPartition => true
  | .requestTimedOut => true
  | .coordinatorNotAvailable => true
  | .notCoordinator => true
  | .coordinatorLoadInProgress => true
  | .concurrentTransactions => true
  | .otherError r => r
  | _ => false

/-- `isinstance(error, UnknownTopicOrPartitionError) or error is
UnknownTopicOrPartitionError` from `_can_retry`. -/
def ErrorType.isUnknownTopicOrPartition : ErrorType → Bool
  | .unknownTopicOrPartition => true
  | _ => false

/-- `AIOKafkaProducer._can_retry` (producer.py lines 890-901).
`has_txn_manager` is `self._txn_manager is not None` (true exactly when
`enable_idempotence` was set, producer.py lines 206-216); `batch_expired` is
`batch.expired()`, which holds when the batch's age exceeds the ttl
`request_timeout_ms / 1000` the producer handed to the accumulator
(producer.py line 247). -/
def can_retry (has_txn_manager batch_expired : Bool) (error : ErrorType) : Bool :=
  if !has_txn_manager && batch_expired then false
  else error.retriable || error.isUnknownTopicOrPartition

/-- The terminal/retry transitions `_send_produce_req` can apply to one batch,
plus the `fence` vocabulary for a transition of the transaction state machine
to FENCED (which spec §4.E.2 prescribes on `InvalidProducerEpoch`). -/
inductive Action
  | done (offset timestamp : Int)
  | failure (error : ErrorType)
  | reenqueue
  | fence
deriving DecidableEq, Repr

/-- The per-partition produce-response handling of `_send_produce_req`
(producer.py lines 843-868), for `required_acks ≠ 0`, as the ordered list of
transitions applied to the batch of that partition.  Mirrors the source
faithfully: the `if error is NoError / elif DuplicateSequenceNumber / elif
InvalidProducerEpoch` chain is followed by a separate `if not
self._can_retry(error(), batch)` statement at the same indentation, so the
`NoError` and `DuplicateSequenceNumber` branches fall through into the
failure/re-enqueue dispatch after calling `batch.done`.  (Metadata-refresh
and logging side effects are not batch transitions and are not recorded.) -/
def handle_partition_response (has_txn_manager batch_expired : Bool)
    (error : ErrorType) (offset timestamp : Int) : List Action :=
  let done_actions : List Action :=
    if error = ErrorType.noError then
      [Action.done offset timestamp]
    else if error = ErrorType.duplicateSequenceNumber then
      [Action.done offset timestamp]
    else []
  let error2 : ErrorType :=
    if error ≠ ErrorType.noError ∧ error ≠ ErrorType.duplicateSequenceNumber ∧
        error = ErrorType.invalidProducerEpoch then
      ErrorType.producerFenced
    else error
  done_actions ++
    (if can_retry has_txn_manager batch_expired error2 = false then
      [Action.failure error2]
    else [Action.reenqueue])

/-- The `except KafkaError` branch of `_send_produce_req` (producer.py lines
811-821), per batch: failure when `_can_retry` is false, else re-enqueue. -/
def handle_send_exception (has_txn_manager batch_expired : Bool)
    (error : ErrorType) : Action :=
  if can_retry has_txn_manager batch_expired error = false then
    Action.failure error
  else Action.reenqueue

/-! ## Serialization, partition selection and the send entry points -/

/-- The ways `send` / `send_batch` can reject a record before it reaches the
accumulator.  `needKeyOrValue` is the `assert not (value is None and key is
None)` in `send`; `assertTransactionCommitting` is the bare `assert False`
executed when `needs_transaction_commit()` is truthy (producer.py lines
385-388 and 968-971); `negativePartition` and `unknownPartition` are the two
asserts of `_partition` (the latter carries the message
'Unrecognized partition'). -/
inductive SendError
  | needKeyOrValue
  | assertTransactionCommitting
  | messageSizeTooLarge
  | negativePartition
  | unknownPartition
deriving DecidableEq, Repr

/-- The size check of `AIOKafkaProducer._serialize` (producer.py lines
903-925), for a producer with no key/value serializers configured, so the
serialized bytes are the given bytes.  `record_overhead` is
`LegacyRecordBatchBuilder.record_overhead(self._producer_magic)` — that
builder lives in `aiokafka/record`, outside the sources at hand, so the
overhead for the active magic is taken as a parameter.  A key or value that
is `none` contributes no bytes, exactly as the two `is not None` guards do. -/
def serialize (record_overhead max_request_size : Nat)
    (serialized_key serialized_value : Option (List Nat)) :
    Except SendError Unit :=
  let message_size := record_overhead
    + (match serialized_key with | some k => k.length | none => 0)
    + (match serialized_value with | some v => v.length | none => 0)
  if message_size > max_request_size then
    Except.error SendError.messageSizeTooLarge
  else Except.ok ()

/-- A user-configured partitioner: called over (serialized key, all
partitions, available partitions), producer.py lines 935-938. -/
def Partitioner : Type :=
  Option (List Nat) → List Int → List Int → Int

/-- `AIOKafkaProducer._partition` (producer.py lines 927-938).  `known` is
`self._metadata.partitions_for_topic(topic)` and `available` is
`self._metadata.available_partitions_for_topic(topic)` (the metadata cache is
an external collaborator; both sets are parameters).  With an explicit
partition the source asserts `partition >= 0` and membership in `known` and
returns the partition unchanged; otherwise it calls the partitioner. -/
def partition_select (known available : List Int) (partitioner : Partitioner)
    (explicit : Option Int) (serialized_key : Option (List Nat)) :
    Except SendError Int :=
  match explicit with
  | some p =>
    if ¬ (0 ≤ p) then Except.error SendError.negativePartition
    else if p ∈ known then Except.ok p
    else Except.error SendError.unknownPartition
  | none => Except.ok (partitioner serialized_key known available)

/-! ### The transaction state machine (transaction_manager.py is not among
the sources at hand; these are modelled from the spec) -/

/-- Modelled from the spec: the transaction state machine of §4.D
(`transaction_manager.py` is not among the sources at hand). -/
inductive TxnState
  | uninitialized
  | ready
  | inTransaction
  | committing
  | aborting
  | fenced
deriving DecidableEq, Repr

/-- Modelled from the spec: the COMMIT / ABORT result values of §4.D. -/
inductive TransactionResult
  | commit
  | abort
deriving DecidableEq, Repr

/-- Modelled from the spec: `TransactionManager.needs_transaction_commit()`
(§4.D: `needs_transaction_commit() → COMMIT|ABORT|None`), returning the
target result while the state is COMMITTING or ABORTING and `none`
otherwise.  `transaction_manager.py` is not among the sources at hand. -/
def needs_transaction_commit : TxnState → Option TransactionResult
  | TxnState.committing => some TransactionResult.commit
  | TxnState.aborting => some TransactionResult.abort
  | _ => none

/-- Modelled from the spec: `TransactionManager.complete_transaction()`
(§4.D state machine: `COMMITTING|ABORTING --complete_transaction--> READY`).
`transaction_manager.py` is not among the sources at hand. -/
def complete_transaction : TxnState → TxnState
  | TxnState.committing => TxnState.ready
  | TxnState.aborting => TxnState.ready
  | s => s

/-- `AIOKafkaProducer.send` (producer.py lines 336-402) up to the call of
`self._message_accumulator.add_message`: the validation asserts, the
transaction-commit check, `_serialize` and `_partition`, in source order.
`txn_state` is `none` when `self._txn_manager is None`; the Python truthiness
test `if self._txn_manager.needs_transaction_commit():` is modelled as the
returned option being `some` (spec §4.D gives the signature COMMIT|ABORT|None
without fixing an encoding).  On success the result is the `TopicPartition`
handed to `add_message`; an error means the record never reached the
accumulator. -/
def send (topic : String) (txn_state : Option TxnState)
    (record_overhead max_request_size : Nat)
    (known available : List Int) (partitioner : Partitioner)
    (key value : Option (List Nat)) (explicit : Option Int) :
    Except SendError TopicPartition :=
  if key = none ∧ value = none then
    Except.error SendError.needKeyOrValue
  else if (match txn_state with
           | some st => (needs_transaction_commit st).isSome
           | none => false) then
    Except.error SendError.assertTransactionCommitting
  else
    match serialize record_overhead max_request_size key value with
    | Except.error e => Except.error e
    | Except.ok _ =>
      match partition_select known available partitioner explicit key with
      | Except.error e => Except.error e
      | Except.ok p => Except.ok ⟨topic, p⟩

/-- `AIOKafkaProducer.send_batch` (producer.py lines 950-979) up to the call
of `add_batch`: partition validation via `_partition(topic, partition, None,
None, None, None)` happens first, then the transaction-commit check; on
success the result is the `TopicPartition` handed to `add_batch`. -/
def send_batch (topic : String) (txn_state : Option TxnState)
    (known available : List Int) (partitioner : Partitioner)
    (explicit : Option Int) : Except SendError TopicPartition :=
  match partition_select known available partitioner explicit none with
  | Except.error e => Except.error e
  | Except.ok p =>
    if (match txn_state with
        | some st => (needs_transaction_commit st).isSome
        | none => false) then
      Except.error SendError.assertTransactionCommitting
    else Except.ok ⟨topic, p⟩

/-! ## Transactional coordination requests -/

/-- `BACKOFF_OVERRIDE` (producer.py line 35): 20 ms expressed in seconds.
Time spans are modelled as exact rationals. -/
def BACKOFF_OVERRIDE : ℚ := 0.02

/-- The effects `_do_add_partitions_to_txn` applies while processing an
`AddPartitionsToTxn` response. -/
inductive TxnReqAction
  | partitionAdded (topic : String) (partitionIndex : Int)
  | coordinatorDead
  | sleepBackoff (seconds : ℚ)
deriving DecidableEq, Repr

/-- The response-processing loop of `_do_add_partitions_to_txn` (producer.py
lines 650-686), with the nested `for topic, partitions in resp.errors: for
partition, error_code in partitions:` iteration flattened into one entry list
(order preserved).  `txn_partitions_empty` is `not txn_manager.txn_partitions`
at the time of the check; it cannot change during the loop because the only
mutation (`partition_added`) returns from the coroutine at once.
`retry_backoff` starts as `self._retry_backoff = retry_backoff_ms / 1000`
(producer.py line 253) and is overridden to `BACKOFF_OVERRIDE` when a
`ConcurrentTransactions` error is seen with no partitions yet in the
transaction; the loop ends with `asyncio.sleep(retry_backoff)` unless a
`NoError` entry returned early (no sleep) or an error was raised. -/
def add_partitions_loop (txn_partitions_empty : Bool) :
    List (String × Int × ErrorType) → ℚ → List TxnReqAction →
    Except ErrorType (List TxnReqAction)
  | [], retry_backoff, acc =>
    Except.ok (acc ++ [TxnReqAction.sleepBackoff retry_backoff])
  | (topic, p, error_type) :: rest, retry_backoff, acc =>
    if error_type = ErrorType.noError then
      Except.ok (acc ++ [TxnReqAction.partitionAdded topic p])
    else if error_type = ErrorType.coordinatorNotAvailable ∨
        error_type = ErrorType.notCoordinator then
      add_partitions_loop txn_partitions_empty rest retry_backoff
        (acc ++ [TxnReqAction.coordinatorDead])
    else if error_type = ErrorType.concurrentTransactions then
      add_partitions_loop txn_partitions_empty rest
        (if txn_partitions_empty then BACKOFF_OVERRIDE else retry_backoff) acc
    else if error_type = ErrorType.coordinatorLoadInProgress ∨
        error_type = ErrorType.unknownTopicOrPartition then
      add_partitions_loop txn_partitions_empty rest retry_backoff acc
    else if error_type = ErrorType.invalidProducerEpoch then
      Except.error ErrorType.producerFenced
    else
      Except.error error_type

/-- `AIOKafkaProducer._do_add_partitions_to_txn` response handling entered
with the producer's configured backoff `retry_backoff_ms / 1000`. -/
def do_add_partitions_to_txn (txn_partitions_empty : Bool)
    (retry_backoff_ms : ℚ) (entries : List (String × Int × ErrorType)) :
    Except ErrorType (List TxnReqAction) :=
  add_partitions_loop txn_partitions_empty entries (retry_backoff_ms / 1000) []

/-- The effects `_do_txn_commit` can apply, in order. -/
inductive CommitAction
  | flushForCommit
  | completeTransaction
  | sendEndTxn (result : TransactionResult)
  | coordinatorDead
  | sleepBackoff
deriving DecidableEq, Repr

/-- `AIOKafkaProducer._do_txn_commit` (producer.py lines 562-623) as its
ordered effect list.  `is_empty` is `txn_manager.is_empty_transaction()`
(modelled from the spec: true when no partitions or offsets were ever
enlisted in the transaction; `transaction_manager.py` is not among the
sources at hand).  The accumulator is always flushed first; an empty
transaction is completed locally and the coroutine returns before an
`EndTxnRequest` is even built.  Otherwise the request is sent and the
response error dispatched as in the source; `resp_error` is the response's
`error_code` (the send-failure branch is not modelled). -/
def do_txn_commit (commit_result : TransactionResult) (is_empty : Bool)
    (resp_error : ErrorType) : Except ErrorType (List CommitAction) :=
  if is_empty then
    Except.ok [CommitAction.flushForCommit, CommitAction.completeTransaction]
  else
    let sent := [CommitAction.flushForCommit,
      CommitAction.sendEndTxn commit_result]
    if resp_error = ErrorType.noError then
      Except.ok (sent ++ [CommitAction.completeTransaction])
    else if resp_error = ErrorType.coordinatorNotAvailable ∨
        resp_error = ErrorType.notCoordinator then
      Except.ok (sent ++ [CommitAction.coordinatorDead,
        CommitAction.sleepBackoff])
    else if resp_error = ErrorType.coordinatorLoadInProgress ∨
        resp_error = ErrorType.concurrentTransactions then
      Except.ok (sent ++ [CommitAction.sleepBackoff])
    else if resp_error = ErrorType.invalidProducerEpoch then
      Except.error ErrorType.producerFenced
    else
      Except.error resp_error

/-! ## The sender loop: muting and in-flight bookkeeping -/

/-- The muted set the sender iteration passes to `drain_by_nodes`
(producer.py lines 444-464): for a transactional producer
(`txn_manager is not None and txn_manager.transactional_id is not None`) it
is `self._muted_partitions | txn_manager.partitions_to_add()`; otherwise it
is `self._muted_partitions` alone.  Python set union is modelled as list
append (membership is what matters). -/
def sender_muted (transactional : Bool)
    (muted_partitions pending_partitions : List TopicPartition) :
    List TopicPartition :=
  if transactional then muted_partitions ++ pending_partitions
  else muted_partitions

/-- Modelled from the spec: `MessageAccumulator.drain_by_nodes(ignore_nodes,
muted_partitions)` (`message_accumulator.py` is not among the sources at
hand).  Spec §4.C: batches are taken "for every partition whose leader is
known, not in `muted_partitions`, and whose leader-node is not in
`ignore_nodes`"; the result maps each selected leader node to that
partition's drained batch.  `leaders` is the metadata leader lookup and
`with_data` the partitions with drainable batches; the result pairs each
drained partition with its leader node. -/
def drain_by_nodes (leaders : TopicPartition → Option Nat)
    (with_data : List TopicPartition) (ignore_nodes : List Nat)
    (muted_partitions : List TopicPartition) :
    List (Nat × TopicPartition) :=
  with_data.filterMap fun tp =>
    if tp ∈ muted_partitions then none
    else
      match leaders tp with
      | none => none
      | some node => if node ∈ ignore_nodes then none else some (node, tp)

/-- The sender-loop bookkeeping state for claim C3: `in_flight` lists the
broker nodes with an outstanding `_send_produce_req` task (producer.py lines
250, 471, 886), and `txn_tasks` lists the transactional sub-tasks spawned so
far with their done flags, the currently tracked `txn_task` being the last
entry (producer.py lines 431, 448-451). -/
structure SenderLoopState where
  in_flight : List Nat
  txn_tasks : List Bool
deriving DecidableEq, Repr

/-- The sender loop starts with no in-flight produce requests and
`txn_task = None` (producer.py lines 250 and 431). -/
def senderInit : SenderLoopState := ⟨[], []⟩

/-- One observable step of the sender system (producer.py lines 433-499 and
886-888):
* `spawnProduce`: one loop iteration drains batches and spawns one
  `_send_produce_req` per returned node, adding each to `_in_flight`
  (lines 467-474).  The accumulator's contract (spec §4.C, modelled from the
  spec as `message_accumulator.py` is not among the sources at hand)
  guarantees the returned mapping is keyed by node — each node appears once —
  and contains no node of `ignore_nodes = self._in_flight`.
* `finishProduce`: a produce task completes, removing its node from
  `_in_flight` (line 886).
* `spawnTxn`: a loop iteration spawns a new transactional sub-task, which the
  guard at line 448 permits only when `txn_task is None or txn_task.done()`.
* `finishTxn`: some transactional sub-task completes. -/
inductive SenderStep : SenderLoopState → SenderLoopState → Prop
  | spawnProduce (s : SenderLoopState) (nodes : List Nat)
      (hnodup : nodes.Nodup) (hfree : ∀ n ∈ nodes, n ∉ s.in_flight) :
      SenderStep s ⟨s.in_flight ++ nodes, s.txn_tasks⟩
  | finishProduce (s : SenderLoopState) (n : Nat) :
      SenderStep s ⟨s.in_flight.erase n, s.txn_tasks⟩
  | spawnTxn (s : SenderLoopState)
      (hdone : ∀ b ∈ s.txn_tasks.getLast?, b = true) :
      SenderStep s ⟨s.in_flight, s.txn_tasks ++ [false]⟩
  | finishTxn (s : SenderLoopState) (i : Nat) :
      SenderStep s ⟨s.in_flight, s.txn_tasks.set i true⟩

/-- States the sender system can reach from its initial state. -/
def SenderReachable (s : SenderLoopState) : Prop :=
  Relation.ReflTransGen SenderStep senderInit s

/-- The inductive invariant of the sender bookkeeping: in-flight nodes are
pairwise distinct, and every transactional sub-task other than the tracked
(last-spawned) one is done. -/
def SenderInv (s : SenderLoopState) : Prop :=
  s.in_flight.Nodup ∧ ∀ b ∈ s.txn_tasks.dropLast, b = true

theorem all_true_of_dropLast_getLast {l : List Bool}
    (h1 : ∀ b ∈ l.dropLast, b = true) (h2 : ∀ b ∈ l.getLast?, b = true) :
    ∀ b ∈ l, b = true := by
  intro b hb
  rcases List.eq_nil_or_concat l with rfl | ⟨l₂, a, rfl⟩
  · cases hb
  · rw [List.concat_eq_append] at hb
    rcases List.mem_append.mp hb with h | h
    · refine h1 b ?_
      simp only [List.concat_eq_append, List.dropLast_concat]
      exact h
    · have hba : b = a := by simpa using h
      subst hba
      apply h2
      simp [List.getLast?_concat]

theorem dropLast_set_true {l : List Bool} (i : Nat)
    (h1 : ∀ b ∈ l.dropLast, b = true) :
    ∀ b ∈ (l.set i true).dropLast, b = true := by
  intro b hb
  rw [List.mem_iff_getElem] at hb
  obtain ⟨j, hj, hbj⟩ := hb
  have hlen : (l.set i true).dropLast.length = l.length - 1 := by
    simp [List.length_dropLast, List.length_set]
  have hj₂ : j < l.length - 1 := hlen ▸ hj
  have hj₃ : j < (l.set i true).length := by
    simp only [List.length_set]; omega
  rw [List.getElem_dropLast, List.getElem_set] at hbj
  by_cases hij : i = j
  · rw [if_pos hij] at hbj
    exact hbj.symm
  · rw [if_neg hij] at hbj
    apply h1
    rw [List.mem_iff_getElem]
    refine ⟨j, by simpa [List.length_dropLast] using hj₂, ?_⟩
    rw [List.getElem_dropLast]
    exact hbj

theorem senderInv_init : SenderInv senderInit := by
  constructor
  · exact List.nodup_nil
  · intro b hb
    cases hb

theorem senderInv_step {s s₂ : SenderLoopState} (h : SenderStep s s₂)
    (hs : SenderInv s) : SenderInv s₂ := by
  obtain ⟨hnodup, htxn⟩ := hs
  cases h with
  | spawnProduce nodes hnd hfree =>
    exact ⟨hnodup.append hnd (fun a ha hb => hfree a hb ha), htxn⟩
  | finishProduce n =>
    exact ⟨hnodup.erase n, htxn⟩
  | spawnTxn hdone =>
    refine ⟨hnodup, fun b hb => ?_⟩
    simp only [List.dropLast_concat] at hb
    exact all_true_of_dropLast_getLast htxn hdone b hb
  | finishTxn i =>
    exact ⟨hnodup, dropLast_set_true i htxn⟩

theorem senderInv_reachable {s : SenderLoopState} (h : SenderReachable s) :
    SenderInv s := by
  induction h with
  | refl => exact senderInv_init
  | tail _ hstep ih => exact senderInv_step hstep ih

/-! ## Claims -/

/-- C1: the produce-response handler evaluated at the failing inputs.  The
claim states that with acks ≠ 0 a partition whose error code is NoError (or
DuplicateSequenceNumber) gets exactly one terminal transition, `done`, with
no subsequent failure or re-enqueue.  The code instead falls through after
`batch.done(offset, timestamp)` into the `_can_retry` dispatch and — since
`NoError` and `DuplicateSequenceNumber` are not retriable — additionally
calls `batch.failure(...)` on the same batch. -/
theorem c1_noerror_applies_done_then_failure :
    handle_partition_response true false ErrorType.noError 5 100
      = [Action.done 5 100, Action.failure ErrorType.noError]
    ∧ handle_partition_response false false
        ErrorType.duplicateSequenceNumber (-1) (-1)
      = [Action.done (-1) (-1),
         Action.failure ErrorType.duplicateSequenceNumber] := by
  exact ⟨by decide, by decide⟩

/-- C4 counterexample: at the concrete input — a produce response reporting
InvalidProducerEpoch for a partition of an idempotent producer — the handler
performs no transition of the transaction state machine to FENCED (no
`Action.fence` is among the applied effects), contrary to the claim that the
producer is fenced; it only fails the batch with ProducerFenced. -/
theorem c4_counterexample_no_fence_transition :
    Action.fence ∉
      handle_partition_response true false ErrorType.invalidProducerEpoch
        (-1) (-1)
    ∧ handle_partition_response true false ErrorType.invalidProducerEpoch
        (-1) (-1)
      = [Action.failure ErrorType.producerFenced] := by
  exact ⟨by decide, by decide⟩

/-- C4 (amended): when a produce response reports InvalidProducerEpoch for a
partition, the handler replaces the error by ProducerFenced and fails that
partition's batch with ProducerFenced — this is the batch's only transition;
no transition of the transaction state machine to FENCED is performed in
this code path. -/
theorem c4_invalid_epoch_fails_batch_with_producer_fenced
    (has_txn_manager batch_expired : Bool) (offset timestamp : Int) :
    handle_partition_response has_txn_manager batch_expired
        ErrorType.invalidProducerEpoch offset timestamp
      = [Action.failure ErrorType.producerFenced]
    ∧ Action.fence ∉
        handle_partition_response has_txn_manager batch_expired
          ErrorType.invalidProducerEpoch offset timestamp := by
  have h : handle_partition_response has_txn_manager batch_expired
      ErrorType.invalidProducerEpoch offset timestamp
      = [Action.failure ErrorType.producerFenced] := by
    cases has_txn_manager <;> cases batch_expired <;> rfl
  refine ⟨h, ?_⟩
  rw [h]
  decide

/-- C5: for a transactional producer whose state machine is COMMITTING or
ABORTING (so `needs_transaction_commit()` returns a result), `send` rejects
the call with the validation error raised by its `assert False` — the record
never reaches the accumulator — and `send_batch` likewise never enqueues. -/
theorem c5_send_rejected_while_commit_pending
    (topic : String) (st : TxnState)
    (record_overhead max_request_size : Nat) (known available : List Int)
    (partitioner : Partitioner) (key value : Option (List Nat))
    (explicit : Option Int)
    (hkv : ¬(key = none ∧ value = none))
    (hst : st = TxnState.committing ∨ st = TxnState.aborting) :
    send topic (some st) record_overhead max_request_size known available
        partitioner key value explicit
      = Except.error SendError.assertTransactionCommitting
    ∧ ∀ tp, send_batch topic (some st) known available partitioner explicit
        ≠ Except.ok tp := by
  have hns : (needs_transaction_commit st).isSome = true := by
    rcases hst with h | h <;> subst h <;> rfl
  constructor
  · unfold send
    rw [if_neg hkv]
    simp [hns]
  · intro tp
    unfold send_batch
    cases hp : partition_select known available partitioner explicit none with
    | error e => simp [hp]
    | ok p => simp [hp, hns]

/-- C5 witness: the concrete instantiation — transactional producer in
COMMITTING state, a send with a key and no value — is rejected before the
accumulator. -/
theorem c5_witness :
    (¬((some [1] : Option (List Nat)) = none
        ∧ (none : Option (List Nat)) = none)
      ∧ (TxnState.committing = TxnState.committing
        ∨ TxnState.committing = TxnState.aborting))
    ∧ (send "t" (some TxnState.committing) 34 1048576 [0] [0]
          (fun _ _ _ => 0) (some [1]) none (some 0)
        = Except.error SendError.assertTransactionCommitting
      ∧ ∀ tp, send_batch "t" (some TxnState.committing) [0] [0]
          (fun _ _ _ => 0) (some 0) ≠ Except.ok tp) :=
  ⟨⟨by decide, Or.inl rfl⟩,
   c5_send_rejected_while_commit_pending "t" TxnState.committing 34 1048576
     [0] [0] (fun _ _ _ => 0) (some [1]) none (some 0) (by decide)
     (Or.inl rfl)⟩

/-- C6: the retry policy of `_can_retry` as applied per batch by
`_send_produce_req`: with no transaction manager (idempotence off) an expired
batch is failed and never re-enqueued, whatever the error; a retriable error
(or UnknownTopicOrPartition) on a non-expired batch leads to re-enqueue; with
idempotence on, expiry is ignored and a retriable error always leads to
re-enqueue. -/
theorem c6_retry_policy (error : ErrorType) (batch_expired : Bool) :
    handle_send_exception false true error = Action.failure error
    ∧ ((error.retriable || error.isUnknownTopicOrPartition) = true →
        handle_send_exception false false error = Action.reenqueue)
    ∧ ((error.retriable || error.isUnknownTopicOrPartition) = true →
        handle_send_exception true batch_expired error = Action.reenqueue) := by
  refine ⟨rfl, fun h => ?_, fun h => ?_⟩
  · simp [handle_send_exception, can_retry, h]
  · simp [handle_send_exception, can_retry, h]

/-- C6 witness: the policy evaluated at UnknownTopicOrPartition with an
expired batch. -/
theorem c6_witness :
    handle_send_exception false true ErrorType.unknownTopicOrPartition
      = Action.failure ErrorType.unknownTopicOrPartition
    ∧ handle_send_exception false false ErrorType.unknownTopicOrPartition
      = Action.reenqueue
    ∧ handle_send_exception true true ErrorType.unknownTopicOrPartition
      = Action.reenqueue :=
  ⟨(c6_retry_policy ErrorType.unknownTopicOrPartition true).1,
   (c6_retry_policy ErrorType.unknownTopicOrPartition true).2.1 (by decide),
   (c6_retry_policy ErrorType.unknownTopicOrPartition true).2.2 (by decide)⟩

/-- C7: the message-size boundary of `_serialize`: a record whose serialized
key and value sizes plus the record overhead total exactly
`max_request_size` is accepted, and one byte more raises
MessageSizeTooLargeError — in `send`, before the record reaches the
accumulator. -/
theorem c7_message_size_boundary (topic : String)
    (record_overhead max_request_size : Nat) (key value : List Nat)
    (known available : List Int) (partitioner : Partitioner)
    (explicit : Option Int)
    (heq : record_overhead + key.length + value.length = max_request_size) :
    serialize record_overhead max_request_size (some key) (some value)
      = Except.ok ()
    ∧ (∀ extra : Nat,
        serialize record_overhead max_request_size (some key)
            (some (value ++ [extra]))
          = Except.error SendError.messageSizeTooLarge)
    ∧ (∀ extra : Nat,
        send topic none record_overhead max_request_size known available
            partitioner (some key) (some (value ++ [extra])) explicit
          = Except.error SendError.messageSizeTooLarge) := by
  have hred : ∀ v₂ : List Nat,
      serialize record_overhead max_request_size (some key) (some v₂)
        = if record_overhead + key.length + v₂.length > max_request_size
          then Except.error SendError.messageSizeTooLarge
          else Except.ok () := fun _ => rfl
  have hser : ∀ extra : Nat,
      serialize record_overhead max_request_size (some key)
          (some (value ++ [extra]))
        = Except.error SendError.messageSizeTooLarge := by
    intro extra
    rw [hred, if_pos]
    simp only [List.length_append, List.length_cons, List.length_nil]
    omega
  refine ⟨?_, hser, fun extra => ?_⟩
  · rw [hred, if_neg]
    omega
  · unfold send
    rw [if_neg (by simp)]
    rw [if_neg (by simp)]
    rw [hser extra]

/-- C7 witness: overhead 2, key of 1 byte, value of 2 bytes, limit 5. -/
theorem c7_witness :
    2 + ([0] : List Nat).length + ([0, 0] : List Nat).length = 5
    ∧ (serialize 2 5 (some [0]) (some [0, 0]) = Except.ok ()
      ∧ (∀ extra : Nat, serialize 2 5 (some [0]) (some ([0, 0] ++ [extra]))
          = Except.error SendError.messageSizeTooLarge)
      ∧ (∀ extra : Nat,
          send "t" none 2 5 [0] [0] (fun _ _ _ => 0) (some [0])
              (some ([0, 0] ++ [extra])) none
            = Except.error SendError.messageSizeTooLarge)) :=
  ⟨by decide,
   c7_message_size_boundary "t" 2 5 [0] [0, 0] [0] [0] (fun _ _ _ => 0) none
     (by decide)⟩

/-- C8: `_partition` with an explicit nonnegative partition: if the partition
is in the topic's known partition set it is returned unchanged, otherwise the
call fails with the 'Unrecognized partition' assertion (the spec's
UnknownPartition); the configured partitioner is consulted only when no
explicit partition is given — with an explicit partition the result does not
depend on the partitioner or the key at all. -/
theorem c8_explicit_partition_validation (known available : List Int)
    (f g : Partitioner) (key key2 : Option (List Nat)) (p : Int)
    (hp : 0 ≤ p) :
    (p ∈ known → partition_select known available f (some p) key
      = Except.ok p)
    ∧ (p ∉ known → partition_select known available f (some p) key
      = Except.error SendError.unknownPartition)
    ∧ partition_select known available f (some p) key
      = partition_select known available g (some p) key2 := by
  have hred : ∀ (h : Partitioner) (k : Option (List Nat)),
      partition_select known available h (some p) k
        = if ¬0 ≤ p then Except.error SendError.negativePartition
          else if p ∈ known then Except.ok p
          else Except.error SendError.unknownPartition := fun _ _ => rfl
  refine ⟨fun hin => ?_, fun hout => ?_, ?_⟩
  · rw [hred, if_neg (not_not_intro hp), if_pos hin]
  · rw [hred, if_neg (not_not_intro hp), if_neg hout]
  · rw [hred, hred]

/-- C8 witness: with known partitions {0, 1}, explicit partition 1 is used
unchanged and explicit partition 5 is rejected, independently of the
partitioner. -/
theorem c8_witness :
    ((0 : Int) ≤ 1 ∧ (0 : Int) ≤ 5)
    ∧ ((1 : Int) ∈ [(0 : Int), 1] ∧ (5 : Int) ∉ [(0 : Int), 1])
    ∧ (partition_select [0, 1] [0] (fun _ _ _ => 0) (some 1) none
        = Except.ok 1
      ∧ partition_select [0, 1] [0] (fun _ _ _ => 0) (some 5) none
        = Except.error SendError.unknownPartition
      ∧ partition_select [0, 1] [0] (fun _ _ _ => 0) (some 1) none
        = partition_select [0, 1] [0] (fun _ _ _ => 7) (some 1) (some [3])) :=
  ⟨⟨by decide, by decide⟩, ⟨by decide, by decide⟩,
   (c8_explicit_partition_validation [0, 1] [0] (fun _ _ _ => 0)
       (fun _ _ _ => 0) none none 1 (by decide)).1 (by decide),
   (c8_explicit_partition_validation [0, 1] [0] (fun _ _ _ => 0)
       (fun _ _ _ => 0) none none 5 (by decide)).2.1 (by decide),
   (c8_explicit_partition_validation [0, 1] [0] (fun _ _ _ => 0)
       (fun _ _ _ => 7) none (some [3]) 1 (by decide)).2.2⟩

/-- C9: an AddPartitionsToTxn response reporting ConcurrentTransactions for
its partition makes `_do_add_partitions_to_txn` back off for
`BACKOFF_OVERRIDE` (exactly 20 ms) when `txn_partitions` is still empty, and
for the configured `retry_backoff_ms / 1000` when partitions were already
added. -/
theorem c9_concurrent_transactions_backoff (retry_backoff_ms : ℚ)
    (topic : String) (p : Int) :
    do_add_partitions_to_txn true retry_backoff_ms
        [(topic, p, ErrorType.concurrentTransactions)]
      = Except.ok [TxnReqAction.sleepBackoff BACKOFF_OVERRIDE]
    ∧ do_add_partitions_to_txn false retry_backoff_ms
        [(topic, p, ErrorType.concurrentTransactions)]
      = Except.ok [TxnReqAction.sleepBackoff (retry_backoff_ms / 1000)]
    ∧ BACKOFF_OVERRIDE = 20 / 1000 := by
  refine ⟨rfl, rfl, by norm_num [BACKOFF_OVERRIDE]⟩

/-- C10: when a transaction commit or abort is requested and the transaction
is empty, `_do_txn_commit` flushes and completes the transaction locally —
its effect list contains no EndTxnRequest send — and `complete_transaction`
returns the state machine from COMMITTING or ABORTING to READY. -/
theorem c10_empty_transaction_completes_locally
    (commit_result : TransactionResult) (resp_error : ErrorType) :
    do_txn_commit commit_result true resp_error
      = Except.ok [CommitAction.flushForCommit,
          CommitAction.completeTransaction]
    ∧ (∀ r : TransactionResult, CommitAction.sendEndTxn r
        ∉ [CommitAction.flushForCommit, CommitAction.completeTransaction])
    ∧ complete_transaction TxnState.committing = TxnState.ready
    ∧ complete_transaction TxnState.aborting = TxnState.ready := by
  refine ⟨rfl, ?_, rfl, rfl⟩
  intro r
  cases r <;> decide

/-- C2: on a sender iteration of a transactional producer the muted set
passed to `drain_by_nodes` is exactly the union of the in-flight mute set
`self._muted_partitions` and `partitions_to_add()`, and consequently no
produce request assembled from the drained batches contains a partition that
is still pending enlistment. -/
theorem c2_pending_partition_never_drained
    (muted_partitions pending_partitions with_data : List TopicPartition)
    (leaders : TopicPartition → Option Nat) (in_flight : List Nat)
    (p : TopicPartition) (hp : p ∈ pending_partitions) :
    (∀ tp, tp ∈ sender_muted true muted_partitions pending_partitions ↔
      (tp ∈ muted_partitions ∨ tp ∈ pending_partitions))
    ∧ ∀ e ∈ drain_by_nodes leaders with_data in_flight
          (sender_muted true muted_partitions pending_partitions),
        e.2 ≠ p := by
  constructor
  · intro tp
    simp [sender_muted]
  · intro e he hep
    simp only [drain_by_nodes, List.mem_filterMap] at he
    obtain ⟨tp, _, hf⟩ := he
    by_cases hmem : tp ∈ sender_muted true muted_partitions pending_partitions
    · rw [if_pos hmem] at hf
      exact Option.noConfusion hf
    · have htp : e.2 = tp := by
        rw [if_neg hmem] at hf
        cases hl : leaders tp with
        | none =>
          rw [hl] at hf
          exact Option.noConfusion hf
        | some node =>
          rw [hl] at hf
          have hf₂ : (if node ∈ in_flight then none
              else some (node, tp) : Option (Nat × TopicPartition))
              = some e := hf
          by_cases hn : node ∈ in_flight
          · rw [if_pos hn] at hf₂
            exact Option.noConfusion hf₂
          · rw [if_neg hn] at hf₂
            cases hf₂
            rfl
      apply hmem
      rw [htp] at hep
      rw [hep]
      simp [sender_muted, hp]

/-- C2 witness: with the pending partition ("t", 0) and data for ("t", 0)
and ("u", 2), the drained output never contains ("t", 0). -/
theorem c2_witness :
    (⟨"t", 0⟩ : TopicPartition) ∈ [(⟨"t", 0⟩ : TopicPartition)]
    ∧ ((∀ tp, tp ∈ sender_muted true [] [⟨"t", 0⟩] ↔
          (tp ∈ ([] : List TopicPartition)
            ∨ tp ∈ [(⟨"t", 0⟩ : TopicPartition)]))
      ∧ ∀ e ∈ drain_by_nodes (fun _ => some 1)
            [⟨"t", 0⟩, ⟨"u", 2⟩] [] (sender_muted true [] [⟨"t", 0⟩]),
          e.2 ≠ ⟨"t", 0⟩) :=
  ⟨by simp,
   c2_pending_partition_never_drained [] [⟨"t", 0⟩] [⟨"t", 0⟩, ⟨"u", 2⟩]
     (fun _ => some 1) [] ⟨"t", 0⟩ (by simp)⟩

/-- C3: in every reachable state of the sender loop each broker node has at
most one in-flight produce request (its node id occurs at most once in
`_in_flight`, which `drain_by_nodes` is told to ignore until
`_send_produce_req` removes it), and at most one transactional
coordination sub-task is running (a new one is spawned only when the tracked
one is done). -/
theorem c3_at_most_one_in_flight (s : SenderLoopState)
    (h : SenderReachable s) :
    (∀ n : Nat, s.in_flight.count n ≤ 1)
    ∧ s.txn_tasks.count false ≤ 1 := by
  obtain ⟨hnodup, htxn⟩ := senderInv_reachable h
  constructor
  · exact fun n => List.nodup_iff_count_le_one.mp hnodup n
  · rcases List.eq_nil_or_concat s.txn_tasks with hnil | ⟨l₂, a, hconcat⟩
    · rw [hnil]
      simp
    · have hall : ∀ b ∈ l₂, b = true := by
        intro b hb
        apply htxn
        rw [hconcat]
        simp only [List.concat_eq_append, List.dropLast_concat]
        exact hb
      have h0 : l₂.count false = 0 := by
        rw [List.count_eq_zero]
        intro hf
        exact Bool.false_ne_true (hall false hf)
      rw [hconcat, List.concat_eq_append, List.count_append, h0]
      cases a <;> simp

/-- C3 witness: the state reached by one drain that spawned produce requests
to nodes 1 and 2 satisfies the invariant. -/
theorem c3_witness :
    SenderReachable ⟨[1, 2], []⟩
    ∧ ((∀ n : Nat,
          (⟨[1, 2], []⟩ : SenderLoopState).in_flight.count n ≤ 1)
      ∧ (⟨[1, 2], []⟩ : SenderLoopState).txn_tasks.count false ≤ 1) := by
  have hreach : SenderReachable ⟨[1, 2], []⟩ :=
    Relation.ReflTransGen.single
      (SenderStep.spawnProduce senderInit [1, 2] (by decide) (by decide))
  exact ⟨hreach, c3_at_most_one_in_flight _ hreach⟩

end Aiokafka
